import Mathlib

/-!
Verification of the Gesture-Art drawing application.

The repository ships one orchestration file, `src/main.py` (the per-frame
application loop).  The two stateful components it drives — the canvas
engine (`canvas_engine.py`) and the gesture recognizer
(`gesture_recognition.py`) — are not present in the source tree, so they
are modelled here from the specification's description of their data model
and operations (each such definition carries a doc comment starting
`Modelled from the spec:`).  The application loop itself is embedded
directly from `src/main.py`.
-/

namespace GestureArt

/-- Modelled from the spec: `GestureType` enumerated variant (§3) —
NONE, DRAW, CLEAR, UNDO, REDO, SAVE, TOOL_CHANGE, SELECT.  The Python
enum lives in the missing `gesture_recognition.py`. -/
inductive GestureType where
  | NONE | DRAW | CLEAR | UNDO | REDO | SAVE | TOOL_CHANGE | SELECT
  deriving DecidableEq, Repr

/-- Modelled from the spec: `GestureState` enumerated variant (§3) —
NONE, IN_PROGRESS, COMPLETED.  The Python enum lives in the missing
`gesture_recognition.py`. -/
inductive GestureState where
  | NONE | IN_PROGRESS | COMPLETED
  deriving DecidableEq, Repr

/-- Modelled from the spec: `BrushType` tagged enumeration (§4.2/§9,
"e.g. pencil, marker, airbrush, eraser"), in that order.  The Python enum
lives in the missing `canvas_engine.py`; the spec names exactly these
four example variants. -/
inductive BrushType where
  | PENCIL | MARKER | AIRBRUSH | ERASER
  deriving DecidableEq, Repr, Fintype

/-- The list of brush variants in declaration order, as Python's
`list(BrushType)` produces it (used by `main.py` lines 67–69). -/
def brushList : List BrushType :=
  [BrushType.PENCIL, BrushType.MARKER, BrushType.AIRBRUSH, BrushType.ERASER]

/-- A 2-D canvas point, in frame pixel coordinates. -/
abbrev Point := ℤ × ℤ

/-- An RGB color triple. -/
abbrev Color := ℤ × ℤ × ℤ

/-- Modelled from the spec: the brush configuration held by `CanvasState`
(§3): type, size, opacity ∈ [0,1], hardness ∈ [0,1], flow ∈ [0,1], color.
The concrete record lives in the missing `canvas_engine.py`. -/
structure BrushConfig where
  brush_type : BrushType
  size : ℤ
  opacity : ℚ
  hardness : ℚ
  flow : ℚ
  color : Color
  deriving DecidableEq, Repr

/-- One application of the brush footprint at one point of a stroke
(spec glossary: "Stamp"), recording position, pressure and the brush
configuration in force when it was stamped. -/
structure Stamp where
  pos : Point
  pressure : ℚ
  cfg : BrushConfig
  deriving DecidableEq, Repr

/-- Modelled from the spec: the raster (width×height pixel buffer, §3).
Rasterization is deterministic in the sequence of stamps applied since
the last reset to background (§4.2 brush model), so the pixel buffer is
represented by that sequence; the empty sequence is the background, and
bit-for-bit raster equality is equality of stamp sequences. -/
abbrev Raster := List Stamp

/-- A point of a stroke: (x, y, pressure) (spec §3, "Stroke"). -/
structure StrokePoint where
  pos : Point
  pressure : ℚ
  deriving DecidableEq, Repr

/-- Modelled from the spec: `CanvasState` (§3) — raster, brush
configuration, linear undo/redo history with a single current position
(the history cursor), and the active-drawing slot holding the in-flight
stroke.  History entries are raster snapshots (§9 names snapshots as the
direct strategy): `history.getD cursor` is the raster of the current
committed position.  The concrete class lives in the missing
`canvas_engine.py`. -/
structure CanvasState where
  raster : Raster
  history : List Raster
  cursor : ℕ
  brush : BrushConfig
  activeStroke : Option (List StrokePoint)
  deriving DecidableEq, Repr

/-- Modelled from the spec: the default brush configuration of a fresh
canvas (concrete defaults are not fixed by the spec; representative
in-range values). -/
def defaultBrush : BrushConfig :=
  { brush_type := BrushType.PENCIL, size := 5, opacity := 1, hardness := 1,
    flow := 1, color := (0, 0, 0) }

/-- Modelled from the spec: a freshly constructed `CanvasEngine` — blank
(background) raster, a history containing only the initial raster with the
cursor on it, no active stroke. -/
def initCanvas : CanvasState :=
  { raster := [], history := [[]], cursor := 0, brush := defaultBrush,
    activeStroke := none }

/-- Modelled from the spec: committing the current raster as a new
`HistoryEntry` (§3): truncates any undone-but-not-yet-overwritten future
history ("any new edit after an undo discards all entries beyond the
current position"), appends the post-edit raster snapshot and advances the
cursor onto it. -/
def commitRaster (s : CanvasState) : CanvasState :=
  { s with history := s.history.take (s.cursor + 1) ++ [s.raster],
           cursor := s.cursor + 1 }

/-- Modelled from the spec: sealing the active stroke (§4.2 `draw`, null
point / pen-up): if a stroke is active it is sealed and committed as one
history entry; with no active stroke, nothing to seal. -/
def sealStroke (s : CanvasState) : CanvasState :=
  if s.activeStroke.isSome then commitRaster { s with activeStroke := none }
  else s

/-- Modelled from the spec: `draw(point | null, pressure, isDrawing)`
(§4.2): a non-null point with `isDrawing` appends the point to the active
stroke (creating one if none is active) and immediately rasterizes the
increment with the current brush configuration (live preview, not yet in
history); a null point (or `isDrawing` false) seals and commits the active
stroke. -/
def draw (s : CanvasState) (point : Option Point) (pressure : ℚ)
    (is_drawing : Bool) : CanvasState :=
  match point, is_drawing with
  | some p, true =>
      { s with raster := s.raster ++ [⟨p, pressure, s.brush⟩],
               activeStroke :=
                 some (s.activeStroke.getD [] ++ [⟨p, pressure⟩]) }
  | _, _ => sealStroke s

/-- Modelled from the spec: `clear()` (§4.2) — resets the raster to the
background and commits the edit as a history entry (the prior raster stays
recoverable at the previous history position). -/
def clear (s : CanvasState) : CanvasState :=
  commitRaster { s with raster := [] }

/-- Modelled from the spec: `undo()` (§4.2) — moves the history cursor one
step back and restores the prior raster snapshot; no-op (not an error) at
the left boundary. -/
def undo (s : CanvasState) : CanvasState :=
  if s.cursor = 0 then s
  else { s with cursor := s.cursor - 1,
                raster := s.history.getD (s.cursor - 1) [] }

/-- Modelled from the spec: `redo()` (§4.2) — moves the history cursor one
step forward and reapplies (restores the snapshot at the new position);
no-op (not an error) at the right boundary. -/
def redo (s : CanvasState) : CanvasState :=
  if s.cursor + 1 < s.history.length then
    { s with cursor := s.cursor + 1,
             raster := s.history.getD (s.cursor + 1) [] }
  else s

/-- Modelled from the spec: minimum valid brush size.  The spec fixes no
numeric bound for size ("clamped to the valid range", §4.2); a positive
minimum of 1 pixel is the representative choice. -/
def min_brush_size : ℤ := 1

/-- Modelled from the spec: maximum valid brush size (not fixed
numerically by the spec; representative choice). -/
def max_brush_size : ℤ := 100

/-- Modelled from the spec: `set_brush(type)` (§4.2) — pure configuration
mutator. -/
def set_brush (s : CanvasState) (t : BrushType) : CanvasState :=
  { s with brush := { s.brush with brush_type := t } }

/-- Modelled from the spec: `set_color(rgb)` (§4.2). -/
def set_color (s : CanvasState) (c : Color) : CanvasState :=
  { s with brush := { s.brush with color := c } }

/-- Modelled from the spec: `set_brush_size(n)` (§4.2) — out-of-range
input is clamped to the valid range, not rejected. -/
def set_brush_size (s : CanvasState) (n : ℤ) : CanvasState :=
  { s with brush :=
      { s.brush with size := max min_brush_size (min max_brush_size n) } }

/-- Modelled from the spec: `set_opacity(f)` (§4.2) — clamped into
[0, 1]. -/
def set_opacity (s : CanvasState) (f : ℚ) : CanvasState :=
  { s with brush := { s.brush with opacity := max 0 (min 1 f) } }

/-- Modelled from the spec: `set_hardness(f)` (§4.2) — clamped into
[0, 1]. -/
def set_hardness (s : CanvasState) (f : ℚ) : CanvasState :=
  { s with brush := { s.brush with hardness := max 0 (min 1 f) } }

/-- Modelled from the spec: `set_flow(f)` (§4.2) — clamped into
[0, 1]. -/
def set_flow (s : CanvasState) (f : ℚ) : CanvasState :=
  { s with brush := { s.brush with flow := max 0 (min 1 f) } }

/-- Modelled from the spec: `save(path)` (§4.2) serializes the raster to
the external image-I/O collaborator; it does not mutate canvas state. -/
def save (s : CanvasState) : CanvasState := s

/-! ## Gesture recognizer (modelled from the spec, §3/§4.1) -/

/-- Modelled from the spec: the default `detection_threshold` (0.75),
also the value `main.py` line 17 passes to the constructor. -/
def detection_threshold : ℚ := mkRat 3 4

/-- Modelled from the spec: the debounce window N, a small positive
integer; the spec's worked scenario (§8) uses 3. -/
def debounce_window : ℕ := 3

/-- The per-finger up/down boolean vector (thumb, index, middle, ring,
pinky), as produced by the tracker's `fingers_up` (spec §3,
`FingerState`). -/
structure FingerState where
  thumb : Bool
  index : Bool
  middle : Bool
  ring : Bool
  pinky : Bool
  deriving DecidableEq, Repr

/-- Modelled from the spec: the finger-pose signature table (§4.1/§9),
restricted to the signatures the spec names concretely: index-only-up
signals DRAW, all fingers down (a fist) signals CLEAR.  SELECT's pinch is
a geometric check on landmarks and the remaining gestures' signatures are
left unspecified by the spec, so any other pattern matches no known
signature (NONE). -/
def classify (f : FingerState) : GestureType :=
  if f = ⟨false, true, false, false, false⟩ then GestureType.DRAW
  else if f = ⟨false, false, false, false, false⟩ then GestureType.CLEAR
  else GestureType.NONE

/-- Modelled from the spec: the recognizer's session state (§3) — the
current debounce candidate gesture, how many consecutive frames it has
been held above threshold, and whether it has already fired (the "last
fired" tag preventing repeat-fire while the pose is still held). -/
structure RecognizerState where
  candidate : Option GestureType
  holdCount : ℕ
  fired : Bool
  deriving DecidableEq, Repr

/-- Modelled from the spec: the recognizer's initial (IDLE) session
state. -/
def initRecognizer : RecognizerState := ⟨none, 0, false⟩

/-- Modelled from the spec: one step of the debounce state machine
(§4.1), for a frame whose signature-matched gesture is `g` at confidence
`c`, with threshold `t` and debounce window `w`.  A match below the
threshold yields NONE regardless of pattern and resets the candidate;
DRAW is exempt from debounce and reports IN_PROGRESS immediately (the
pose change also resets any pending candidate); a non-DRAW gesture is a
CANDIDATE (reported IN_PROGRESS) until held for `w` consecutive frames,
fires COMPLETED exactly once on the `w`-th frame, then reports NONE/IDLE
while the same pose is still held. -/
def recognizeStep (t : ℚ) (w : ℕ) (s : RecognizerState) (g : GestureType)
    (c : ℚ) : RecognizerState × GestureType × GestureState :=
  if c < t ∨ g = GestureType.NONE then
    (initRecognizer, GestureType.NONE, GestureState.NONE)
  else if g = GestureType.DRAW then
    (initRecognizer, GestureType.DRAW, GestureState.IN_PROGRESS)
  else if s.candidate = some g then
    if s.fired then
      (s, GestureType.NONE, GestureState.NONE)
    else
      let n := s.holdCount + 1
      if w ≤ n then (⟨some g, n, true⟩, g, GestureState.COMPLETED)
      else (⟨some g, n, false⟩, g, GestureState.IN_PROGRESS)
  else
    if w ≤ 1 then (⟨some g, 1, true⟩, g, GestureState.COMPLETED)
    else (⟨some g, 1, false⟩, g, GestureState.IN_PROGRESS)

/-- Modelled from the spec: the recognizer contract
`recognize_gesture(landmarks, fingerState) → (GestureType, confidence,
GestureState)` (§4.1).  The confidence is a continuous score derived from
landmark geometry by the (black-box) signature-matching; it enters the
model as the input `c`.  The finger vector is classified by the signature
table and fed to the debounce machine with the default threshold and
window. -/
def recognize_gesture (s : RecognizerState) (f : FingerState) (c : ℚ) :
    RecognizerState × GestureType × ℚ × GestureState :=
  let r := recognizeStep detection_threshold debounce_window s (classify f) c
  (r.1, r.2.1, c, r.2.2)

/-- Outputs of running the debounce machine over a list of
(gesture, confidence) frames from state `s`: the per-frame
(GestureType, GestureState) reports, in order. -/
def runRecognizer (t : ℚ) (w : ℕ) (s : RecognizerState) :
    List (GestureType × ℚ) → List (GestureType × GestureState)
  | [] => []
  | (g, c) :: rest =>
      let r := recognizeStep t w s g c
      r.2 :: runRecognizer t w r.1 rest

/-! ## Application loop (embedded from `src/main.py`) -/

/-- A UI-interaction command, as returned by the external
`ui.handle_interaction` collaborator (spec §6) and dispatched by
`main.py` lines 74–111.  `slider_changed` carries the color picker's
current color, which line 87 reads from the (external) UI element
state. -/
inductive UIAction where
  | clear
  | undo
  | redo
  | save
  | color_selected (color : Color)
  | slider_changed (current_color : Color)
  | brush_selected (name : String)
  | brush_property_changed (name : String) (value : ℚ)
  deriving DecidableEq, Repr

/-- Python's `str.upper()` for the ASCII member names at hand: upper-case
every character. -/
def pyUpper (s : String) : String := ⟨s.data.map Char.toUpper⟩

/-- Python's `BrushType[name.upper()]` (`main.py` line 93): enum member
lookup by exact (upper-cased) member name, `none` when the lookup raises
`KeyError`. -/
def brushTypeFromName (name : String) : Option BrushType :=
  if pyUpper name = "PENCIL" then some BrushType.PENCIL
  else if pyUpper name = "MARKER" then some BrushType.MARKER
  else if pyUpper name = "AIRBRUSH" then some BrushType.AIRBRUSH
  else if pyUpper name = "ERASER" then some BrushType.ERASER
  else none

/-- Python's `int(val)`: truncation of a rational toward zero. -/
def ratTrunc (q : ℚ) : ℤ := Int.tdiv q.num q.den

/-- The per-frame external inputs of one iteration of `GestureArtApp.run`
(`main.py` lines 28–124): camera read success, hand detection and
landmark extraction results, the finger vector, the geometric confidence
score the recognizer derives from the landmarks, the optional command the
external UI channel returns this frame, and whether the quit key was
pressed. -/
structure FrameInput where
  ret : Bool
  hands_detected : Bool
  found : Bool
  landmarks : List (ℕ × ℤ × ℤ)
  fingers : FingerState
  conf : ℚ
  interaction : Option UIAction
  key_q : Bool

/-- The mutable state of `GestureArtApp` that the claims concern: the
canvas engine, the recognizer session state, and `last_draw_state`
(`main.py` lines 16–20). -/
structure AppState where
  canvas : CanvasState
  recognizer : RecognizerState
  last_draw_state : Bool
  deriving Repr

/-- `GestureArtApp.__init__` (`main.py` lines 9–22): fresh canvas, fresh
recognizer, `last_draw_state = False`. -/
def initApp : AppState :=
  { canvas := initCanvas, recognizer := initRecognizer,
    last_draw_state := false }

/-- `interaction_point = (landmarks[8][1], landmarks[8][2])` (`main.py`
line 47): the x/y coordinates of the index-fingertip landmark row
(rows are `[id, x, y]`). -/
def interactionPoint (lms : List (ℕ × ℤ × ℤ)) : Point :=
  ((lms.getD 8 (0, 0, 0)).2.1, (lms.getD 8 (0, 0, 0)).2.2)

/-- The COMPLETED-gesture command dispatch of `main.py` lines 57–70:
CLEAR clears, UNDO/REDO move the history cursor, SAVE serializes, and
TOOL_CHANGE advances the brush to the next member of `list(BrushType)`
cyclically (lines 66–70). -/
def commandDispatch (g : GestureType) (c : CanvasState) : CanvasState :=
  match g with
  | GestureType.CLEAR => clear c
  | GestureType.UNDO => undo c
  | GestureType.REDO => redo c
  | GestureType.SAVE => save c
  | GestureType.TOOL_CHANGE =>
      let brushes := brushList
      let idx := brushes.indexOf c.brush.brush_type
      let new_brush := brushes.getD ((idx + 1) % brushes.length)
        BrushType.PENCIL
      set_brush c new_brush
  | _ => c

/-- The gesture-driven portion of one loop iteration (`main.py` lines
42–70): when a hand is found, recognize the gesture; a DRAW frame draws
at the fingertip with pressure 1.0 and marks `last_draw_state`; any other
gesture first seals the active stroke with `draw(None)` if
`last_draw_state` was set, then dispatches the command if the gesture
COMPLETED.  Without a found hand nothing runs (lines 37–40 leave gesture
NONE). -/
def gestureStep (app : AppState) (fin : FrameInput) : AppState :=
  if fin.hands_detected && fin.found then
    let r := recognize_gesture app.recognizer fin.fingers fin.conf
    let g := r.2.1
    let st := r.2.2.2
    let ip := interactionPoint fin.landmarks
    if g = GestureType.DRAW then
      { app with canvas := draw app.canvas (some ip) 1 true,
                 recognizer := r.1, last_draw_state := true }
    else
      let c1 := if app.last_draw_state then draw app.canvas none 1 false
                else app.canvas
      let c2 := if st = GestureState.COMPLETED then commandDispatch g c1
                else c1
      { app with canvas := c2, recognizer := r.1, last_draw_state := false }
  else app

/-- The UI-interaction dispatch of `main.py` lines 74–111, returning the
updated canvas and the list of messages printed.  An unknown brush name
raises `KeyError` inside the `try`, is caught, logged ("Invalid brush
name: ..."), and leaves the canvas untouched (lines 89–96).  A brush
property is dispatched only when its name is non-empty (Python
truthiness of `prop`, line 100); the setters clamp, so the `except`
branch of lines 110–111 is unreachable in the model. -/
def handleUIAction (a : UIAction) (c : CanvasState) :
    CanvasState × List String :=
  match a with
  | UIAction.clear => (clear c, [])
  | UIAction.undo => (undo c, [])
  | UIAction.redo => (redo c, [])
  | UIAction.save => (save c, [])
  | UIAction.color_selected col => (set_color c col, [])
  | UIAction.slider_changed col => (set_color c col, [])
  | UIAction.brush_selected name =>
      match brushTypeFromName name with
      | some b => (set_brush c b, [])
      | none => (c, ["Invalid brush name: " ++ name])
  | UIAction.brush_property_changed name val =>
      if name = "" then (c, [])
      else if name = "size" then (set_brush_size c (ratTrunc val), [])
      else if name = "opacity" then (set_opacity c val, [])
      else if name = "hardness" then (set_hardness c val, [])
      else if name = "flow" then (set_flow c val, [])
      else (c, [])

/-- The successor of a brush type in the declared enumeration order,
wrapping from the last variant back to the first — a direct recursive
definition of the cycling behavior, to be compared with the index-based
computation `main.py` lines 66–70 perform via `list(BrushType)`. -/
def nextBrushType : BrushType → BrushType
  | BrushType.PENCIL => BrushType.MARKER
  | BrushType.MARKER => BrushType.AIRBRUSH
  | BrushType.AIRBRUSH => BrushType.ERASER
  | BrushType.ERASER => BrushType.PENCIL

/-- One full loop iteration after a successful camera read (`main.py`
lines 34–121): gesture processing first, then the UI-interaction command
(if the UI channel returned one this frame); rendering mutates no
state. -/
def appTick (app : AppState) (fin : FrameInput) : AppState :=
  let app1 := gestureStep app fin
  match fin.interaction with
  | none => app1
  | some a => { app1 with canvas := (handleUIAction a app1.canvas).1 }

/-- `GestureArtApp.run` (`main.py` lines 28–127) over a stream of frame
inputs: a failed camera read breaks out before processing; otherwise the
frame is processed and the loop breaks after it when the quit key was
pressed (line 123).  After the loop, lines 126–127 only release the
camera and destroy the windows — no canvas operation runs on the way
out. -/
def runLoop (app : AppState) : List FrameInput → AppState
  | [] => app
  | fin :: rest =>
      if !fin.ret then app
      else
        let app1 := appTick app fin
        if fin.key_q then app1 else runLoop app1 rest

/-! ## Concrete example states used by witnesses and counterexamples -/

/-- A canvas with one in-flight (uncommitted) stroke at (1, 2). -/
def exampleStrokeCanvas : CanvasState := draw initCanvas (some (1, 2)) 1 true

/-- The same canvas after the pen-up seal: one committed stroke in
history. -/
def exampleSealedCanvas : CanvasState := draw exampleStrokeCanvas none 1 false

/-- The sealed canvas after one `undo()`: cursor at the left boundary
with one redoable entry. -/
def exampleUndoneCanvas : CanvasState := undo exampleSealedCanvas

/-- A landmark list whose row 8 (index fingertip) sits at (40, 50). -/
def exampleLandmarks : List (ℕ × ℤ × ℤ) :=
  [(0, 0, 0), (1, 1, 1), (2, 2, 2), (3, 3, 3), (4, 4, 4), (5, 5, 5),
   (6, 6, 6), (7, 7, 7), (8, 40, 50)]

/-- A frame holding the DRAW pose (index finger only) at full confidence,
with the quit key pressed. -/
def exampleQuitDrawFrame : FrameInput :=
  { ret := true, hands_detected := true, found := true,
    landmarks := exampleLandmarks,
    fingers := ⟨false, true, false, false, false⟩, conf := 1,
    interaction := none, key_q := true }

/-- A frame holding the fist (CLEAR) pose at confidence 0.9. -/
def exampleFistFrame : FrameInput :=
  { ret := true, hands_detected := true, found := true,
    landmarks := exampleLandmarks,
    fingers := ⟨false, false, false, false, false⟩, conf := mkRat 9 10,
    interaction := none, key_q := false }

/-- An app state mid-stroke whose recognizer is two held frames into the
fist candidate. -/
def exampleMidStrokeApp : AppState :=
  { canvas := exampleStrokeCanvas,
    recognizer := ⟨some GestureType.CLEAR, 2, false⟩,
    last_draw_state := true }

/-! ## History lemmas -/

/-- Committing an edit places the cursor on the last history entry, so an
immediately following `redo` is at the right boundary and is a no-op. -/
theorem redo_commitRaster (t : CanvasState) :
    redo (commitRaster t) = commitRaster t := by
  have h : ¬ (commitRaster t).cursor + 1 < (commitRaster t).history.length := by
    simp only [commitRaster, List.length_append, List.length_take,
      List.length_cons, List.length_nil]
    omega
  simp [redo, h]

/-- Sealing a stroke always leaves the active-drawing slot empty. -/
theorem sealStroke_activeStroke (t : CanvasState) :
    (sealStroke t).activeStroke = none := by
  unfold sealStroke
  cases h : t.activeStroke <;> simp [h, commitRaster]

/-! ## C5 -/

/-- C5: the brush configuration setters are total (they never raise) and
clamp out-of-range arguments to the nearest bound of the valid range:
`set_brush_size (-5)` yields the minimum valid size, `set_opacity (37/10)`
yields the maximum valid opacity 1, in-range arguments pass through
unchanged, and every result lies inside the valid range. -/
theorem brush_setters_clamp_out_of_range (s : CanvasState) :
    (set_brush_size s (-5)).brush.size = min_brush_size ∧
    (set_opacity s (mkRat 37 10)).brush.opacity = 1 ∧
    (set_brush_size s 7).brush.size = 7 ∧
    (set_opacity s (mkRat 1 2)).brush.opacity = mkRat 1 2 ∧
    (∀ n : ℤ, min_brush_size ≤ (set_brush_size s n).brush.size ∧
      (set_brush_size s n).brush.size ≤ max_brush_size) ∧
    (∀ f : ℚ, 0 ≤ (set_opacity s f).brush.opacity ∧
      (set_opacity s f).brush.opacity ≤ 1) := by
  refine ⟨(by decide : max min_brush_size (min max_brush_size (-5)) =
      min_brush_size),
    (by decide : max 0 (min 1 (mkRat 37 10)) = 1),
    (by decide : max min_brush_size (min max_brush_size 7) = 7),
    (by decide : max 0 (min 1 (mkRat 1 2)) = mkRat 1 2),
    fun n => ⟨?_, ?_⟩, fun f => ⟨?_, ?_⟩⟩
  · exact le_max_left _ _
  · exact max_le (by decide) (min_le_left _ _)
  · exact le_max_left _ _
  · exact max_le (by norm_num) (min_le_left _ _)

/-! ## C9 -/

/-- C9: a completed TOOL_CHANGE gesture sets the canvas brush to the
successor of the current brush in the `BrushType` enumeration order,
wrapping from the last variant back to the first; iterating the successor
visits every brush type and returns to the start after one full cycle. -/
theorem tool_change_cycles_brush_types (s : CanvasState) :
    (commandDispatch GestureType.TOOL_CHANGE s).brush.brush_type =
      nextBrushType s.brush.brush_type ∧
    (∀ b : BrushType, nextBrushType^[brushList.length] b = b) ∧
    (∀ b b' : BrushType,
      ∃ k : Fin brushList.length, nextBrushType^[k.1] b = b') := by
  refine ⟨?_, by decide, by decide⟩
  rcases s with ⟨r, h, cur, ⟨bt, sz, op, ha, fl, co⟩, a⟩
  cases bt <;> (unfold commandDispatch set_brush; simp only [brushList]; rfl)

/-! ## C7 -/

/-- C7: a `brush_selected` UI command carrying a brush name outside the
`BrushType` member table is logged ("Invalid brush name: ...") and
ignored: the handler is a total function (the `KeyError` is caught, the
session does not crash) and the canvas state is returned unchanged. -/
theorem unknown_brush_name_logged_and_ignored (c : CanvasState)
    (name : String) (h : brushTypeFromName name = none) :
    handleUIAction (UIAction.brush_selected name) c =
      (c, ["Invalid brush name: " ++ name]) := by
  simp [handleUIAction, h]

/-- Witness for C7 at the concrete unknown name "glitter" and a fresh
canvas. -/
theorem unknown_brush_name_logged_and_ignored_witness :
    brushTypeFromName "glitter" = none ∧
    handleUIAction (UIAction.brush_selected "glitter") initCanvas =
      (initCanvas, ["Invalid brush name: " ++ "glitter"]) :=
  ⟨by decide,
   unknown_brush_name_logged_and_ignored initCanvas "glitter" (by decide)⟩

/-! ## C2 -/

/-- C2: after any number of `undo()` calls, performing a new edit —
committing a stroke (a drawn point followed by the pen-up seal) or a
`clear()` — truncates the history to the entries up to the current
position plus the new entry, so a subsequent `redo()` is a no-op that
leaves the canvas state unchanged. -/
theorem edit_after_undo_discards_redoable_entries (s : CanvasState)
    (k : ℕ) (p : Point) (pr : ℚ) :
    redo (clear (undo^[k + 1] s)) = clear (undo^[k + 1] s) ∧
    redo (draw (draw (undo^[k + 1] s) (some p) pr true) none 1 false) =
      draw (draw (undo^[k + 1] s) (some p) pr true) none 1 false ∧
    (clear (undo^[k + 1] s)).history =
      (undo^[k + 1] s).history.take ((undo^[k + 1] s).cursor + 1) ++ [[]] := by
  refine ⟨?_, ?_, rfl⟩
  · exact redo_commitRaster _
  · show redo (sealStroke _) = sealStroke _
    unfold sealStroke
    simp only [draw, Option.isSome_some, if_pos]
    exact redo_commitRaster _

/-! ## C1 -/

/-- C1 as stated is refuted at the left history boundary: on a canvas
with one committed stroke that has just been undone (cursor at 0, one
redoable entry), `undo()` is a boundary no-op but the following `redo()`
advances the cursor, so the raster after `undo(); redo()` differs from
the raster immediately before the `undo()`. -/
theorem undo_redo_roundtrip_counterexample :
    (redo (undo exampleUndoneCanvas)).raster ≠ exampleUndoneCanvas.raster := by
  decide

/-- C1 (amended): for every canvas state with at least one undoable entry
(history cursor positive, so the `undo()` is not a boundary no-op), a
cursor inside the history, and a raster equal to the committed snapshot
at the cursor (no uncommitted live-preview stamps), applying `undo()`
then `redo()` any number of times, with no other mutation in between,
reproduces the state — in particular the raster — bit-for-bit. -/
theorem undo_redo_roundtrip_restores_raster (s : CanvasState)
    (hc : 0 < s.cursor) (hl : s.cursor < s.history.length)
    (hr : s.raster = s.history.getD s.cursor []) (k : ℕ) :
    (fun t => redo (undo t))^[k + 1] s = s ∧
    ((fun t => redo (undo t))^[k + 1] s).raster = s.raster := by
  have h1 : redo (undo s) = s := by
    rcases s with ⟨r, hist, c, b, a⟩
    simp only at hc hl hr
    cases c with
    | zero => omega
    | succ c' =>
        have hu : undo ⟨r, hist, c' + 1, b, a⟩ =
            ⟨hist.getD c' [], hist, c', b, a⟩ := by
          simp [undo]
        rw [hu]
        simp [redo, hl, hr]
  have h2 : (fun t => redo (undo t))^[k + 1] s = s :=
    @Function.iterate_fixed _ (fun t => redo (undo t)) s h1 (k + 1)
  exact ⟨h2, by rw [h2]⟩

/-- Witness for C1 (amended) on the sealed one-stroke canvas, one
`undo(); redo()` pair. -/
theorem undo_redo_roundtrip_restores_raster_witness :
    (0 < exampleSealedCanvas.cursor ∧
      exampleSealedCanvas.cursor < exampleSealedCanvas.history.length ∧
      exampleSealedCanvas.raster =
        exampleSealedCanvas.history.getD exampleSealedCanvas.cursor []) ∧
    (fun t => redo (undo t))^[1] exampleSealedCanvas = exampleSealedCanvas ∧
    ((fun t => redo (undo t))^[1] exampleSealedCanvas).raster =
      exampleSealedCanvas.raster :=
  ⟨⟨by decide, by decide, by decide⟩,
   undo_redo_roundtrip_restores_raster exampleSealedCanvas (by decide)
     (by decide) (by decide) 0⟩

/-! ## C6 -/

/-- C6 as stated is refuted: a frame that extends a stroke (DRAW pose)
with the quit key pressed ends the loop with the stroke still active and
nothing committed to history — no implicit pen-up seal happens on
shutdown. -/
theorem quit_does_not_seal_stroke_counterexample :
    (runLoop initApp [exampleQuitDrawFrame]).canvas.activeStroke ≠ none ∧
    (runLoop initApp [exampleQuitDrawFrame]).canvas.history = [[]] := by
  constructor
  · decide
  · decide

/-- C6 (amended): when the quit key is read, the loop terminates
immediately after the tick that read it; shutdown performs no canvas
operation, so an in-flight stroke is left exactly as that tick left it
(uncommitted), not sealed. -/
theorem quit_terminates_loop_without_sealing (app : AppState)
    (fin : FrameInput) (rest : List FrameInput) (hret : fin.ret = true)
    (hq : fin.key_q = true) :
    runLoop app (fin :: rest) = appTick app fin := by
  simp [runLoop, hret, hq]

/-- Witness for C6 (amended) on the quit-while-drawing frame. -/
theorem quit_terminates_loop_without_sealing_witness :
    (exampleQuitDrawFrame.ret = true ∧ exampleQuitDrawFrame.key_q = true) ∧
    runLoop initApp [exampleQuitDrawFrame] =
      appTick initApp exampleQuitDrawFrame :=
  ⟨⟨rfl, rfl⟩,
   quit_terminates_loop_without_sealing initApp exampleQuitDrawFrame [] rfl rfl⟩

/-! ## Debounce state machine lemmas -/

/-- Counting occurrences in a replicated list. -/
theorem countP_replicate {α : Type} (p : α → Bool) (n : ℕ) (a : α) :
    (List.replicate n a).countP p = if p a then n else 0 := by
  induction n with
  | zero => simp
  | succ n ih =>
      rw [List.replicate_succ, List.countP_cons, ih]
      cases h : p a <;> simp [h]

/-- Once a held gesture has fired, every further frame of the same held
pose reports NONE/NONE and leaves the session state unchanged. -/
theorem runRecognizer_after_fired (t : ℚ) (w : ℕ) (g : GestureType)
    (c : ℚ) (hct : ¬ c < t) (hgN : g ≠ GestureType.NONE)
    (hgD : g ≠ GestureType.DRAW) (j m : ℕ) :
    runRecognizer t w ⟨some g, j, true⟩ (List.replicate m (g, c)) =
      List.replicate m (GestureType.NONE, GestureState.NONE) := by
  induction m with
  | zero => rfl
  | succ m ih =>
      rw [List.replicate_succ, List.replicate_succ]
      simp only [runRecognizer, recognizeStep, hct, hgN, hgD, false_or,
        if_false, ite_false, if_neg, not_false_iff]
      simp [ih]

/-- Holding a gesture above threshold from an unfired candidate state
with `j` frames already counted produces IN_PROGRESS reports until the
debounce window is reached, one COMPLETED report on the window's frame,
and NONE/NONE afterwards. -/
theorem runRecognizer_held (t : ℚ) (w : ℕ) (g : GestureType) (c : ℚ)
    (hct : ¬ c < t) (hgN : g ≠ GestureType.NONE)
    (hgD : g ≠ GestureType.DRAW) :
    ∀ m j, w ≤ j + m → j + 1 ≤ w →
    runRecognizer t w ⟨some g, j, false⟩ (List.replicate m (g, c)) =
      List.replicate (w - j - 1) (g, GestureState.IN_PROGRESS) ++
        (g, GestureState.COMPLETED) ::
          List.replicate (m - (w - j)) (GestureType.NONE, GestureState.NONE) := by
  intro m
  induction m with
  | zero => intro j h1 h2; omega
  | succ m ih =>
      intro j h1 h2
      rw [List.replicate_succ]
      by_cases hw : w ≤ j + 1
      · have hstep : recognizeStep t w ⟨some g, j, false⟩ g c =
            (⟨some g, j + 1, true⟩, g, GestureState.COMPLETED) := by
          simp [recognizeStep, hct, hgN, hgD, hw]
        simp only [runRecognizer, hstep]
        rw [runRecognizer_after_fired t w g c hct hgN hgD]
        have hz : w - j - 1 = 0 := by omega
        have hm : m + 1 - (w - j) = m := by omega
        rw [hz, hm, List.replicate_zero, List.nil_append]
      · have hstep : recognizeStep t w ⟨some g, j, false⟩ g c =
            (⟨some g, j + 1, false⟩, g, GestureState.IN_PROGRESS) := by
          simp [recognizeStep, hct, hgN, hgD, hw]
        simp only [runRecognizer, hstep]
        rw [ih (j + 1) (by omega) (by omega)]
        have hrep : w - j - 1 = (w - (j + 1) - 1) + 1 := by omega
        rw [hrep, List.replicate_succ]
        have hm : m - (w - (j + 1)) = m + 1 - (w - j) := by omega
        rw [hm, List.cons_append]

/-- On a frame whose gesture is above threshold, non-NONE and non-DRAW,
the IDLE session state behaves exactly as an unfired candidate with zero
held frames. -/
theorem recognizeStep_init (t : ℚ) (w : ℕ) (g : GestureType) (c : ℚ)
    (hct : ¬ c < t) (hgN : g ≠ GestureType.NONE)
    (hgD : g ≠ GestureType.DRAW) :
    recognizeStep t w initRecognizer g c =
      recognizeStep t w ⟨some g, 0, false⟩ g c := by
  simp [recognizeStep, initRecognizer, hct, hgN, hgD]

/-! ## C3 -/

/-- C3: for every input stream holding one non-DRAW, non-NONE gesture
pose above the confidence threshold for `n ≥ w` consecutive frames
(debounce window `w ≥ 1`), the recognizer reports the pose as a
CANDIDATE (IN_PROGRESS) on each of the first `w - 1` frames, fires
COMPLETED exactly on frame `w`, and reports NONE/IDLE on every later
frame of the same held run — so COMPLETED occurs exactly once over the
whole run, never once per frame.  With the default window 3 the first
COMPLETED is on frame 3. -/
theorem nondraw_gesture_completes_exactly_once (t c : ℚ) (w n : ℕ)
    (g : GestureType) (hct : ¬ c < t) (hgN : g ≠ GestureType.NONE)
    (hgD : g ≠ GestureType.DRAW) (hw : 1 ≤ w) (hn : w ≤ n) :
    runRecognizer t w initRecognizer (List.replicate n (g, c)) =
      List.replicate (w - 1) (g, GestureState.IN_PROGRESS) ++
        (g, GestureState.COMPLETED) ::
          List.replicate (n - w) (GestureType.NONE, GestureState.NONE) ∧
    (runRecognizer t w initRecognizer (List.replicate n (g, c))).countP
      (fun o => o.2 == GestureState.COMPLETED) = 1 := by
  obtain ⟨n', rfl⟩ : ∃ n', n = n' + 1 := ⟨n - 1, by omega⟩
  have hrun : runRecognizer t w initRecognizer
        (List.replicate (n' + 1) (g, c)) =
      runRecognizer t w ⟨some g, 0, false⟩
        (List.replicate (n' + 1) (g, c)) := by
    rw [List.replicate_succ]
    simp only [runRecognizer, recognizeStep_init t w g c hct hgN hgD]
  have hheld := runRecognizer_held t w g c hct hgN hgD (n' + 1) 0
    (by omega) (by omega)
  have h1 : w - 0 - 1 = w - 1 := by omega
  have h2 : n' + 1 - (w - 0) = n' + 1 - w := by omega
  rw [h1, h2] at hheld
  rw [hrun, hheld]
  refine ⟨rfl, ?_⟩
  rw [List.countP_append, List.countP_cons, countP_replicate,
    countP_replicate]
  simp

/-- Witness for C3: the spec's worked scenario — the fist (CLEAR) pose
held for 4 frames at confidence 0.9 with threshold 0.75 and window 3:
frames 1–2 IN_PROGRESS, frame 3 the single COMPLETED, frame 4
NONE/IDLE. -/
theorem nondraw_gesture_completes_exactly_once_witness :
    runRecognizer detection_threshold debounce_window initRecognizer
        (List.replicate 4 (GestureType.CLEAR, mkRat 9 10)) =
      List.replicate 2 (GestureType.CLEAR, GestureState.IN_PROGRESS) ++
        (GestureType.CLEAR, GestureState.COMPLETED) ::
          List.replicate 1 (GestureType.NONE, GestureState.NONE) ∧
    (runRecognizer detection_threshold debounce_window initRecognizer
        (List.replicate 4 (GestureType.CLEAR, mkRat 9 10))).countP
      (fun o => o.2 == GestureState.COMPLETED) = 1 :=
  nondraw_gesture_completes_exactly_once detection_threshold (mkRat 9 10)
    debounce_window 4 GestureType.CLEAR (by decide) (by decide) (by decide)
    (by decide) (by decide)

/-! ## C4 -/

/-- C4: DRAW is exempt from debounce — every frame matching the DRAW
signature above threshold reports IN_PROGRESS on that very frame, from
any session state; holding the DRAW pose for K consecutive frames
reports IN_PROGRESS on all K frames and COMPLETED on none.  Through the
full `recognize_gesture` contract, the index-only-up finger vector at
confidence above the default threshold yields (DRAW, IN_PROGRESS)
immediately. -/
theorem draw_reports_in_progress_every_frame (rs : RecognizerState)
    (t c : ℚ) (w K : ℕ) (hct : ¬ c < t)
    (hd : ¬ c < detection_threshold) :
    runRecognizer t w rs (List.replicate K (GestureType.DRAW, c)) =
      List.replicate K (GestureType.DRAW, GestureState.IN_PROGRESS) ∧
    (runRecognizer t w rs (List.replicate K (GestureType.DRAW, c))).countP
      (fun o => o.2 == GestureState.COMPLETED) = 0 ∧
    (recognize_gesture rs ⟨false, true, false, false, false⟩ c).2.1 =
      GestureType.DRAW ∧
    (recognize_gesture rs ⟨false, true, false, false, false⟩ c).2.2.2 =
      GestureState.IN_PROGRESS := by
  have hcl : classify ⟨false, true, false, false, false⟩ =
      GestureType.DRAW := rfl
  have hrun : ∀ K rs,
      runRecognizer t w rs (List.replicate K (GestureType.DRAW, c)) =
        List.replicate K (GestureType.DRAW, GestureState.IN_PROGRESS) := by
    intro K
    induction K with
    | zero => intro rs; rfl
    | succ K ih =>
        intro rs
        rw [List.replicate_succ, List.replicate_succ]
        have hstep : recognizeStep t w rs GestureType.DRAW c =
            (initRecognizer, GestureType.DRAW, GestureState.IN_PROGRESS) := by
          simp [recognizeStep, hct]
        simp only [runRecognizer, hstep]
        exact congrArg _ (ih _)
  refine ⟨hrun K rs, ?_, ?_, ?_⟩
  · rw [hrun K rs, countP_replicate]
    simp
  · simp [recognize_gesture, hcl, recognizeStep, hd]
  · simp [recognize_gesture, hcl, recognizeStep, hd]

/-- Witness for C4: the DRAW pose held for 5 frames at full confidence
from a mid-candidate session state. -/
theorem draw_reports_in_progress_every_frame_witness :
    runRecognizer detection_threshold 3 (⟨some GestureType.CLEAR, 2, false⟩)
        (List.replicate 5 (GestureType.DRAW, 1)) =
      List.replicate 5 (GestureType.DRAW, GestureState.IN_PROGRESS) ∧
    (runRecognizer detection_threshold 3 (⟨some GestureType.CLEAR, 2, false⟩)
        (List.replicate 5 (GestureType.DRAW, 1))).countP
      (fun o => o.2 == GestureState.COMPLETED) = 0 ∧
    (recognize_gesture ⟨some GestureType.CLEAR, 2, false⟩
        ⟨false, true, false, false, false⟩ 1).2.1 = GestureType.DRAW ∧
    (recognize_gesture ⟨some GestureType.CLEAR, 2, false⟩
        ⟨false, true, false, false, false⟩ 1).2.2.2 =
      GestureState.IN_PROGRESS :=
  draw_reports_in_progress_every_frame ⟨some GestureType.CLEAR, 2, false⟩
    detection_threshold 1 3 5 (by decide) (by decide)

/-! ## C8 -/

/-- C8: within a frame whose recognized gesture is a COMPLETED non-DRAW
command and which follows a run of DRAW frames (`last_draw_state` set),
the canvas the command dispatch receives is the canvas after the pen-up
`draw(None)` seal — the seal happens first, and a sealed canvas has no
active stroke, so no gesture command executes while a gesture-drawn
stroke is still active. -/
theorem gesture_command_seals_stroke_first (app : AppState)
    (fin : FrameInput) (g : GestureType)
    (hh : fin.hands_detected = true) (hf : fin.found = true)
    (hl : app.last_draw_state = true)
    (hg : (recognize_gesture app.recognizer fin.fingers fin.conf).2.1 = g)
    (hgD : g ≠ GestureType.DRAW)
    (hst : (recognize_gesture app.recognizer fin.fingers fin.conf).2.2.2 =
      GestureState.COMPLETED) :
    (gestureStep app fin).canvas =
      commandDispatch g (draw app.canvas none 1 false) ∧
    (draw app.canvas none 1 false).activeStroke = none := by
  constructor
  · simp [gestureStep, hh, hf, hl, hg, hst, hgD]
  · exact sealStroke_activeStroke _

/-- Witness for C8: the mid-stroke app state receiving the third held
fist frame — the CLEAR command fires on the canvas sealed by
`draw(None)`. -/
theorem gesture_command_seals_stroke_first_witness :
    (gestureStep exampleMidStrokeApp exampleFistFrame).canvas =
      commandDispatch GestureType.CLEAR
        (draw exampleMidStrokeApp.canvas none 1 false) ∧
    (draw exampleMidStrokeApp.canvas none 1 false).activeStroke = none :=
  gesture_command_seals_stroke_first exampleMidStrokeApp exampleFistFrame
    GestureType.CLEAR rfl rfl rfl (by decide) (by decide) (by decide)

/-! ## C10 -/

/-- C10: on every frame the recognizer reports as DRAW, the canvas draw
call receives exactly the index-fingertip coordinates (landmark row 8)
and the constant pressure 1.0: the frame's effect is
`draw(interaction_point, pressure=1.0, is_drawing=True)`, the point
appended to the active stroke carries pressure 1, and the stamp added to
the raster carries pressure 1 — the pressure never varies with the hand
input. -/
theorem draw_uses_fingertip_and_unit_pressure (app : AppState)
    (fin : FrameInput)
    (hh : fin.hands_detected = true) (hf : fin.found = true)
    (hg : (recognize_gesture app.recognizer fin.fingers fin.conf).2.1 =
      GestureType.DRAW) :
    (gestureStep app fin).canvas =
      draw app.canvas
        (some ((fin.landmarks.getD 8 (0, 0, 0)).2.1,
               (fin.landmarks.getD 8 (0, 0, 0)).2.2)) 1 true ∧
    ((gestureStep app fin).canvas.activeStroke.getD []).getLast? =
      some ⟨((fin.landmarks.getD 8 (0, 0, 0)).2.1,
             (fin.landmarks.getD 8 (0, 0, 0)).2.2), 1⟩ ∧
    (gestureStep app fin).canvas.raster.getLast? =
      some ⟨((fin.landmarks.getD 8 (0, 0, 0)).2.1,
             (fin.landmarks.getD 8 (0, 0, 0)).2.2), 1, app.canvas.brush⟩ := by
  have h1 : (gestureStep app fin).canvas =
      draw app.canvas
        (some ((fin.landmarks.getD 8 (0, 0, 0)).2.1,
               (fin.landmarks.getD 8 (0, 0, 0)).2.2)) 1 true := by
    simp [gestureStep, hh, hf, hg, interactionPoint]
  refine ⟨h1, ?_, ?_⟩
  · rw [h1]
    simp [draw, List.getLast?_concat]
  · rw [h1]
    simp [draw, List.getLast?_concat]

/-- Witness for C10: a fresh app receiving a DRAW frame whose fingertip
row 8 sits at (40, 50). -/
theorem draw_uses_fingertip_and_unit_pressure_witness :
    (gestureStep initApp exampleQuitDrawFrame).canvas =
      draw initApp.canvas
        (some ((exampleQuitDrawFrame.landmarks.getD 8 (0, 0, 0)).2.1,
               (exampleQuitDrawFrame.landmarks.getD 8 (0, 0, 0)).2.2)) 1 true ∧
    ((gestureStep initApp exampleQuitDrawFrame).canvas.activeStroke.getD
        []).getLast? =
      some ⟨((exampleQuitDrawFrame.landmarks.getD 8 (0, 0, 0)).2.1,
             (exampleQuitDrawFrame.landmarks.getD 8 (0, 0, 0)).2.2), 1⟩ ∧
    (gestureStep initApp exampleQuitDrawFrame).canvas.raster.getLast? =
      some ⟨((exampleQuitDrawFrame.landmarks.getD 8 (0, 0, 0)).2.1,
             (exampleQuitDrawFrame.landmarks.getD 8 (0, 0, 0)).2.2), 1,
            initApp.canvas.brush⟩ :=
  draw_uses_fingertip_and_unit_pressure initApp exampleQuitDrawFrame rfl rfl
    (by decide)

end GestureArt
